import Mathlib

/-!
# Verification of the `deploy` tool's reconciliation core

This file gives a shallow embedding, in Lean, of the decision logic of the
`deploy` tool: the remote project status prober, the reconciliation engine
(update / destructive reset / cancel), the port/container inspector, the
environment provisioner's heredoc delimiter selection, and the dry-run
behaviour of every stage.

Interactive effects are embedded explicitly:

* every `click.echo`/`click.secho`/`click.prompt` call and every remote
  `ssh.exec_command`/local `subprocess.run` call becomes an `Event` in a
  trace, produced in program order;
* the remote host is an oracle `Host : String → ExecResult` mapping the
  exact command string sent over SSH to its exit status, stdout and stderr;
* `sys.exit(n)` becomes the outcome `Outcome.exit n`; an uncaught Python
  exception (a failed `assert`, a `raise`) becomes `Outcome.crash`;
* user input read by `click.prompt`/`click.edit` is passed in as an
  argument (the prompt itself is recorded as an `Event.prompt`);
* `json.loads(line)["Name"]`-style decoding of single-line JSON records is
  abstracted as a function argument (`jsonName`, `parseContainer`, ...):
  the claims under study never depend on the JSON syntax itself.

Python string operations are modelled on `List Char` (Python `str.split`
with a one-character separator is `List.splitOn`, `str.count` of a
one-character needle is `List.count`, substring test is `List.IsInfix`).
-/

deriving instance DecidableEq for Except

namespace Deploy

/-- One observable step of the program: a stdout message (`click.echo` /
`click.secho`), a stderr message (`click.echo(..., file=sys.stderr)`), a
remote command sent over SSH (`ssh.exec_command`), a local subprocess
invocation (`subprocess.run`), or an interactive prompt shown to the
operator (`click.prompt` / `click.edit` / `click.confirm`). -/
inductive Event where
  | echo (msg : String)
  | err (msg : String)
  | exec (cmd : String)
  | run (args : List String)
  | prompt (msg : String)
deriving DecidableEq, Repr

/-- Result of running one remote command: the exit status recovered by
`stdout.channel.recv_exit_status()`, together with the decoded stdout and
stderr streams. -/
structure ExecResult where
  status : Nat
  out : String
  err : String
deriving DecidableEq, Repr

/-- The remote host, as an oracle from the exact command string sent over
SSH to that command's result. -/
abbrev Host := String → ExecResult

/-- How a modelled code path ends: fall through normally with a value
(`ok`), terminate the process via `sys.exit code` (`exit`), or die with an
uncaught Python exception (`crash`). -/
inductive Outcome (α : Type) where
  | ok (a : α)
  | exit (code : Nat)
  | crash
deriving DecidableEq, Repr

/-- Prepend already-produced events to a stage's (trace, outcome) pair. -/
def seqRun {α : Type} (pre : List Event) (r : List Event × Outcome α) :
    List Event × Outcome α :=
  (pre ++ r.1, r.2)

/-- Project the commands of the `exec` events out of a trace: the remote
commands actually issued, in order. -/
def execCmds (es : List Event) : List String :=
  es.filterMap fun e =>
    match e with
    | .exec c => some c
    | _ => none

/-- Project the stdout messages out of a trace: the narration printed, in
order. -/
def echoMsgs (es : List Event) : List String :=
  es.filterMap fun e =>
    match e with
    | .echo m => some m
    | _ => none

/-- Project the local subprocess invocations out of a trace. -/
def runCmds (es : List Event) : List (List String) :=
  es.filterMap fun e =>
    match e with
    | .run a => some a
    | _ => none

/-- Python `str.splitlines` for `\n`-separated text (the form of every
remote stdout stream parsed by the tool): split on newlines, except that a
trailing newline does not contribute a final empty line, and the empty
string has no lines. -/
def splitlines (s : String) : List String :=
  if s = "" then []
  else
    let parts := (s.toList.splitOn '\n').map fun cs => String.mk cs
    if parts.getLast? = some "" then parts.dropLast else parts

/-- `pathlib.Path(p).name`: the final path component (for the folder paths
the tool builds, which do not end in a slash). -/
def pathName (p : String) : String :=
  (p.splitOn "/").getLastD p

/-- `ProjStatus` dataclass (src/remote.py lines 17-22): the remote project
status, all flags defaulting to `False`. -/
structure ProjStatus where
  folder_exists : Bool := false
  git_folder_exists : Bool := false
  git_is_clean : Bool := false
  dotenv_file_exists : Bool := false
deriving DecidableEq, Repr

/-! ## Command strings built by the tool -/

/-- `cd '{folder}' && {compose_cmd} down` (src/remote.py line 260,
src/docker.py line 135, src/main.py lines 238 and 357). -/
def downCmd (folder composeCmd : String) : String :=
  "cd '" ++ folder ++ "' && " ++ composeCmd ++ " down"

/-- `cd '{folder}' && {compose_cmd} volumes --format json`
(src/remote.py line 271). -/
def volumesCmd (folder composeCmd : String) : String :=
  "cd '" ++ folder ++ "' && " ++ composeCmd ++ " volumes --format json"

/-- `docker volume rm {volume_names_s}` where `volume_names_s` joins the
enumerated names with single spaces (src/remote.py lines 284-286). -/
def volumeRmCmd (names : List String) : String :=
  "docker volume rm " ++ String.intercalate " " names

/-- `rm -rf '{remote_proj_folder}'` (src/remote.py line 294,
src/main.py line 381). -/
def rmFolderCmd (folder : String) : String :=
  "rm -rf '" ++ folder ++ "'"

/-- `mkdir --parents '{remote_parent_folder}'` (src/remote.py line 48). -/
def mkdirCmd (parentFolder : String) : String :=
  "mkdir --parents '" ++ parentFolder ++ "'"

/-- `cd '{folder}' && {compose_cmd} up -d` (src/docker.py line 154). -/
def upCmd (folder composeCmd : String) : String :=
  "cd '" ++ folder ++ "' && " ++ composeCmd ++ " up -d"

/-- `cd '{folder}' && {compose_cmd} ps --format json`
(src/docker.py line 170). -/
def composePsCmd (folder composeCmd : String) : String :=
  "cd '" ++ folder ++ "' && " ++ composeCmd ++ " ps --format json"

/-- The blanket volume-pruning command of the legacy flat entry point
(src/main.py lines 368-370): `docker volume prune --force` followed by
forced removal of every dangling volume on the host. -/
def pruneCmd (folder : String) : String :=
  "cd '" ++ folder ++ "'" ++
    " && docker volume prune --force" ++
    " && docker volume rm --force $(docker volume ls --quiet --filter dangling=true)"

/-- `docker ps --format json` (src/docker.py line 87, src/main.py
line 189). -/
def psCmd : String := "docker ps --format json"

/-- `docker inspect {container_id}` (src/docker.py line 121). -/
def inspectCmd (containerId : String) : String :=
  "docker inspect " ++ containerId

/-! ## Remote project status prober (src/remote.py `get_proj_status`) -/

/-- The composite probe script sent in one round trip (src/remote.py
lines 62-79): nested shell conditionals that emit one sentinel line per
true condition. The `.git` test is nested under the project-folder test,
and the cleanliness test under the `.git` test. -/
def probeScript (folder : String) : String :=
  "\n        if [ -d '" ++ folder ++ "' ]; then\n" ++
  "            echo 'project folder exists'\n" ++
  "            if [ -d '" ++ folder ++ "/.git' ]; then\n" ++
  "                echo '.git folder exists'\n" ++
  "                is_clean=$(git -C '" ++ folder ++ "' status --porcelain)\n" ++
  "                if [ -z \"$is_clean\" ]; then\n" ++
  "                    echo 'Git is clean'\n" ++
  "                fi\n" ++
  "            fi\n" ++
  "            if [ -f '" ++ folder ++ "/.env' ]; then\n" ++
  "                echo '.env file exists'\n" ++
  "            fi\n" ++
  "        fi\n        "

/-- One step of the sentinel-parsing loop (src/remote.py lines 85-94):
`match` each output line against the four sentinel literals, setting the
corresponding flag; any other line leaves the status unchanged. -/
def applySentinel (st : ProjStatus) (line : String) : ProjStatus :=
  if line = "project folder exists" then { st with folder_exists := true }
  else if line = ".git folder exists" then { st with git_folder_exists := true }
  else if line = "Git is clean" then { st with git_is_clean := true }
  else if line = ".env file exists" then { st with dotenv_file_exists := true }
  else st

/-- Parse the probe script's stdout (src/remote.py lines 84-96): start from
an all-`False` `ProjStatus` and fold the sentinel matcher over the lines. -/
def parseProjStatus (out : String) : ProjStatus :=
  (splitlines out).foldl applySentinel {}

/-- Abstract remote state the probe script runs against: whether the
project folder, its `.git` folder and its `.env` file exist, and whether
`git status --porcelain` prints nothing (`gitClean`). -/
structure RemoteFS where
  projFolder : Bool
  gitFolder : Bool
  gitClean : Bool
  dotenvFile : Bool

/-- Denotation of the probe shell script (src/remote.py lines 63-77) on an
abstract remote state: the stdout it produces. The nesting of the source's
shell conditionals is mirrored exactly: the `.git` sentinel can only be
emitted under the project-folder branch, and the cleanliness sentinel only
under the `.git` branch. -/
def probeOutput (fs : RemoteFS) : String :=
  if fs.projFolder then
    "project folder exists\n" ++
      (if fs.gitFolder then
        ".git folder exists\n" ++ (if fs.gitClean then "Git is clean\n" else "")
      else "") ++
      (if fs.dotenvFile then ".env file exists\n" else "")
  else ""

/-- `get_proj_status` (src/remote.py lines 55-96): one composite remote
probe; non-zero exit is fatal (`sys.exit(1)`); otherwise the sentinel lines
of its stdout are parsed into a `ProjStatus`. -/
def get_proj_status (folder sshHost : String) (host : Host) (verbose : Bool) :
    List Event × Outcome ProjStatus :=
  let e0 := if verbose then
      [Event.echo ("Checking the status of the " ++ pathName folder ++
        " project on " ++ sshHost)]
    else []
  let r := host (probeScript folder)
  let e1 := e0 ++ [Event.exec (probeScript folder)]
  if r.status ≠ 0 then (e1 ++ [Event.err ("Error: " ++ r.err)], .exit 1)
  else (e1, .ok (parseProjStatus r.out))

/-! ## Reconciliation engine: destructive reset
(src/remote.py `__delete_project`, lines 248-298) -/

/-- The volume names decoded from the structured volume listing
(src/remote.py lines 276-278): one JSON record per stdout line, from which
the `"Name"` field is read (the JSON field access is the abstract
`jsonName`). -/
def enumeratedVolumes (jsonName : String → String) (out : String) : List String :=
  (splitlines out).map jsonName

/-- Tail of `__delete_project` (src/remote.py lines 291-298): announce the
folder deletion, force the in-memory `dotenv_file_exists` flag to `False`,
and, when not a dry run, run `rm -rf` on the project folder. A non-zero
exit from `rm -rf` only prints the stderr (the run continues): it is common
for log files to be deletable only by root. -/
def delete_project_finish (dryRun : Bool) (folder : String) (st : ProjStatus)
    (host : Host) : List Event × Outcome ProjStatus :=
  let st' : ProjStatus := { st with dotenv_file_exists := false }
  let e0 := [Event.echo "Deleting the folder"]
  if dryRun then (e0, .ok st')
  else
    let r := host (rmFolderCmd folder)
    let e1 := e0 ++ [Event.exec (rmFolderCmd folder)]
    if r.status ≠ 0 then (e1 ++ [Event.echo r.err], .ok st')
    else (e1, .ok st')

/-- Middle of `__delete_project` (src/remote.py lines 268-289): enumerate
the compose-managed volumes with the structured listing (this read-only
probe runs even in a dry run), fatal on non-zero exit; then, when any
volumes were enumerated, delete exactly those volumes by name with one
`docker volume rm` (skipped in a dry run), fatal on non-zero exit. -/
def delete_project_volumes (dryRun : Bool) (folder : String) (st : ProjStatus)
    (composeCmd : String) (host : Host) (verbose : Bool)
    (jsonName : String → String) : List Event × Outcome ProjStatus :=
  let e0 := if verbose then [Event.echo "Checking for volumes"] else []
  let r := host (volumesCmd folder composeCmd)
  let e1 := e0 ++ [Event.exec (volumesCmd folder composeCmd)]
  if r.status ≠ 0 then (e1 ++ [Event.err ("Error: " ++ r.err)], .exit 1)
  else
    let names := enumeratedVolumes jsonName r.out
    let e2 := e1 ++ [Event.echo ("Found " ++ toString names.length ++
      " volumes belonging to the " ++ pathName folder ++ " project")]
    if names = [] then seqRun e2 (delete_project_finish dryRun folder st host)
    else
      let e3 := e2 ++ [Event.echo "Deleting volumes"]
      if dryRun then seqRun e3 (delete_project_finish dryRun folder st host)
      else
        let r2 := host (volumeRmCmd names)
        let e4 := e3 ++ [Event.exec (volumeRmCmd names)]
        if r2.status ≠ 0 then (e4 ++ [Event.err ("Error: " ++ r2.err)], .exit 1)
        else seqRun e4 (delete_project_finish dryRun folder st host)

/-- `__delete_project` (src/remote.py lines 248-298): stop the compose
stack in the project folder (skipped in a dry run; non-zero exit is fatal),
then enumerate and delete the volumes, then delete the folder. -/
def delete_project (dryRun : Bool) (folder : String) (st : ProjStatus)
    (composeCmd : String) (host : Host) (verbose : Bool)
    (jsonName : String → String) : List Event × Outcome ProjStatus :=
  let e0 := if verbose then
      [Event.echo "Making sure no services are running in the remote project folder"]
    else []
  if dryRun then
    seqRun e0 (delete_project_volumes dryRun folder st composeCmd host verbose jsonName)
  else
    let r := host (downCmd folder composeCmd)
    let e1 := e0 ++ [Event.exec (downCmd folder composeCmd)]
    if r.status ≠ 0 then (e1 ++ [Event.err ("Error: " ++ r.err)], .exit 1)
    else
      seqRun e1 (delete_project_volumes dryRun folder st composeCmd host verbose jsonName)

/-- The classification message shown before the update/reset/cancel prompt
(src/remote.py lines 108-125): clean, dirty, or untracked folder. -/
def classifyEchoes (folder sshHost : String) (st : ProjStatus) : List Event :=
  if st.git_folder_exists then
    if st.git_is_clean then
      [Event.echo ("The " ++ pathName folder ++ " project already exists on " ++
        sshHost ++ " and its Git is clean")]
    else
      [Event.echo ("Warning: the " ++ pathName folder ++
        " project already exists on " ++ sshHost ++ ", but its Git is dirty")]
  else
    [Event.echo ("A folder named \"" ++ pathName folder ++
      "\" already exists on " ++ sshHost ++ ", but it has no .git folder")]

/-- The update/reset/cancel prompt text (src/remote.py lines 128-135). -/
def resetPromptText : String :=
  "What do you want to do?\n" ++
  "1. Update files tracked by Git and redeploy\n" ++
  "2. Delete any volumes and the folder, create a new folder, and redeploy\n" ++
  "3. Cancel redeployment\n"

/-- `handle_existing_proj` (src/remote.py lines 99-144): classify the
existing remote project, prompt for one of the three actions (`choice` is
the operator's answer, constrained by `click.Choice` to 1, 2 or 3), then:
3 cancels the redeployment (`sys.exit(0)`), 2 runs the destructive reset,
1 does nothing further (update in place). -/
def handle_existing_proj (dryRun : Bool) (folder : String) (st : ProjStatus)
    (composeCmd : String) (host : Host) (sshHost : String) (verbose : Bool)
    (jsonName : String → String) (choice : Nat) :
    List Event × Outcome ProjStatus :=
  let e0 := classifyEchoes folder sshHost st ++ [Event.prompt resetPromptText]
  if choice = 3 then (e0 ++ [Event.echo "Redeployment canceled"], .exit 0)
  else if choice = 2 then
    seqRun e0 (delete_project dryRun folder st composeCmd host verbose jsonName)
  else (e0, .ok st)

/-- The reset branch of the legacy flat entry point (src/main.py
lines 353-386): stop the compose stack, then *blanket-prune* volumes
(`docker volume prune --force` plus forced removal of every dangling
volume on the host), then delete the folder (non-zero exit from the folder
deletion only prints the stderr). Returns the in-memory
`remote_dotenv_file_exists` flag, forced to `False` (line 378). -/
def main_reset (dryRun : Bool) (folder composeCmd : String) (host : Host) :
    List Event × Outcome Bool :=
  let e0 := [Event.echo "Making sure no services are running in the remote project folder"]
  let step2 : List Event × Outcome Bool :=
    let e1 := [Event.echo "Deleting any volumes"]
    let step3 : List Event × Outcome Bool :=
      let e2 := [Event.echo "Deleting the folder"]
      if dryRun then (e2, .ok false)
      else
        let r := host (rmFolderCmd folder)
        let e3 := e2 ++ [Event.exec (rmFolderCmd folder)]
        if r.status ≠ 0 then (e3 ++ [Event.echo r.err], .ok false)
        else (e3, .ok false)
    if dryRun then seqRun e1 step3
    else
      let r := host (pruneCmd folder)
      let e2 := e1 ++ [Event.exec (pruneCmd folder)]
      if r.status ≠ 0 then (e2 ++ [Event.err ("Error: " ++ r.err)], .exit 1)
      else seqRun e2 step3
  if dryRun then seqRun e0 step2
  else
    let r := host (downCmd folder composeCmd)
    let e1 := e0 ++ [Event.exec (downCmd folder composeCmd)]
    if r.status ≠ 0 then (e1 ++ [Event.err ("Error: " ++ r.err)], .exit 1)
    else seqRun e1 step2

/-! ## Port/container inspector (src/docker.py `check_port`, and the same
inlined logic in src/main.py lines 188-248) -/

/-- One decoded record of `docker ps --format json`: the `"Ports"` field
when present and a string (src/docker.py line 95 checks both), plus the
`"Names"` and `"ID"` fields. -/
structure ContainerRec where
  ports : Option String
  names : String
  id : String
deriving DecidableEq, Repr

/-- `ports = __container["Ports"].split(",")[0]` (src/docker.py line 96):
the first comma-delimited field of the published-ports string, as
characters. -/
def firstPortsField (ports : String) : List Char :=
  (ports.toList.splitOn ',').headD []

/-- The condition of `assert ports.count(":") == 1` (src/docker.py
line 97): the first comma-delimited field contains exactly one colon. -/
def portAssertOk (ports : String) : Bool :=
  (firstPortsField ports).count ':' == 1

/-- `exposed_port = ports.split(":")[1].split("-")[0]` (src/docker.py
line 98): take what follows the colon, up to the first dash. -/
def exposedPort (ports : String) : String :=
  String.mk (((((firstPortsField ports).splitOn ':').getD 1 []).splitOn '-').headD [])

/-- The container-scanning loop of `check_port` (src/docker.py
lines 93-101): walk the listed containers in order; skip entries without a
string `"Ports"` field; on the first entry whose extracted exposed port
equals the target, stop with that container; if the colon assertion fails
on an entry reached before any match, the `AssertionError` aborts the run
(`.error ()`). -/
def findConflict (target : String) : List ContainerRec → Except Unit (Option ContainerRec)
  | [] => .ok none
  | c :: rest =>
    match c.ports with
    | none => findConflict target rest
    | some p =>
      if portAssertOk p then
        if exposedPort p = target then .ok (some c)
        else findConflict target rest
      else .error ()

/-- The port-conflict prompt text (src/docker.py line 111). -/
def portPromptText : String :=
  "What do you want to do?\n1. Shut down the existing services\n2. Cancel deployment\n"

/-- `check_port` (src/docker.py lines 83-145): list the running containers
(read-only, runs even in a dry run; non-zero exit is fatal), look for a
container exposing the target port; when one is found, prompt: choice 2
cancels the deployment (`sys.exit(0)`); choice 1 resolves the conflicting
stack's working directory via `docker inspect` (read-only, runs even in a
dry run) and then, when not a dry run, stops that stack with
`compose down`; any other choice raises `ValueError`. `inspectWorkdir`
abstracts `json.loads(...)[0]["Config"]["Labels"]["com.docker.compose.project.working_dir"]`,
and `parseContainer` the per-line JSON decoding. -/
def check_port (dryRun : Bool) (composeCmd remotePort sshHost : String)
    (host : Host) (parseContainer : String → ContainerRec)
    (inspectWorkdir : String → String) (choice : Nat) :
    List Event × Outcome Unit :=
  let e0 := [Event.echo ("Checking whether port " ++ remotePort ++
    " is already in use on " ++ sshHost)]
  let r := host psCmd
  let e1 := e0 ++ [Event.exec psCmd]
  if r.status ≠ 0 then
    (e1 ++ [Event.err ("Error from `docker ps`: " ++ r.err)], .exit 1)
  else
    match findConflict remotePort ((splitlines r.out).map parseContainer) with
    | .error _ => (e1, .crash)
    | .ok none =>
      (e1 ++ [Event.echo ("🗸 port " ++ remotePort ++ " is available")], .ok ())
    | .ok (some c) =>
      let e2 := e1 ++
        [Event.echo ("Port " ++ remotePort ++ " is already in use by " ++
          c.names ++ " (" ++ c.id ++ ") on " ++ sshHost),
         Event.prompt portPromptText]
      if choice = 2 then (e2 ++ [Event.echo "Deployment canceled"], .exit 0)
      else if choice = 1 then
        let e3 := e2 ++ [Event.echo ("Getting the services' location on " ++ sshHost)]
        let ri := host (inspectCmd c.id)
        let e4 := e3 ++ [Event.exec (inspectCmd c.id)]
        if ri.status ≠ 0 then
          (e4 ++ [Event.err ("Error from `docker inspect`: " ++ ri.err)], .exit 1)
        else
          let dir := inspectWorkdir ri.out
          let e5 := e4 ++ [Event.echo ("Shutting down " ++ c.names ++ " (" ++
            c.id ++ ") on " ++ sshHost)]
          if dryRun then (e5, .ok ())
          else
            let rd := host (downCmd dir composeCmd)
            let e6 := e5 ++ [Event.exec (downCmd dir composeCmd)]
            if rd.status ≠ 0 then
              (e6 ++ [Event.err ("Error from `cd '" ++ dir ++
                "' && docker compose down`: " ++ rd.err)], .exit 1)
            else (e6, .ok ())
      else (e2, .crash)

/-! ## Environment provisioner (src/remote.py `create_dotenv`) -/

/-- The delimiter-selection loop of `create_dotenv` (src/remote.py
lines 232-234): while the candidate delimiter occurs as a substring of the
body, lengthen it with another `A`. Terminates because a candidate longer
than the body cannot occur in it. -/
def heredocDelimLoop (delim body : String) : String :=
  if delim.toList <:+: body.toList then heredocDelimLoop (delim ++ "A") body
  else delim
termination_by body.toList.length + 1 - delim.toList.length
decreasing_by
  have hle : delim.toList.length ≤ body.toList.length :=
    List.IsInfix.length_le (by assumption)
  have : (delim ++ "A").toList.length = delim.toList.length + 1 := by
    simp [String.data_append]
  omega

/-- The delimiter actually selected for a given `.env` body, starting from
the literal `HEREDOC_DELIM` (src/remote.py line 232). -/
def heredocDelim (body : String) : String :=
  heredocDelimLoop "HEREDOC_DELIM" body

/-- The remote `.env`-writing command (src/remote.py lines 236-240):
create the file, restrict it to mode 600, and write the body via a heredoc
bounded by the selected delimiter. -/
def dotenvCmd (folder delim body : String) : String :=
  "cd '" ++ folder ++ "'" ++
    " && touch .env" ++
    " && chmod 600 .env" ++
    " && cat << " ++ delim ++ " > .env\n" ++ body ++ "\n" ++ delim ++ "\n"

/-- Tail of `create_dotenv` (src/remote.py lines 227-245), after the
interactive editing: `newDotenv` is the edited text with the prompt header
removed and stripped. An empty result skips the remote write; otherwise a
delimiter is selected and, when not a dry run, the heredoc write is sent
(non-zero exit is fatal). -/
def create_dotenv_write (dryRun : Bool) (folder : String) (host : Host)
    (verbose : Bool) (newDotenv : String) : List Event × Outcome Unit :=
  if newDotenv = "" then
    ([Event.echo "Skipping creating a .env file in the remote project folder"], .ok ())
  else
    let e0 := if verbose then
        [Event.echo "Creating a .env file in the remote project folder"]
      else []
    let delim := heredocDelim newDotenv
    if dryRun then (e0, .ok ())
    else
      let cmd := dotenvCmd folder delim newDotenv
      let r := host cmd
      let e1 := e0 ++ [Event.exec cmd]
      if r.status ≠ 0 then (e1 ++ [Event.err ("Error: " ++ r.err)], .exit 1)
      else (e1, .ok ())

/-! ## Remaining stages: parent folder, sync, start, monitor -/

/-- `get_parent_folder` (src/remote.py lines 25-52): prompt for the remote
parent folder (`parentFolder` is the operator's resolved answer), reject
single quotes and the root folder, then, when not a dry run, ensure the
folder exists with `mkdir --parents` (non-zero exit is fatal). The
`config.save()` call is a local-file collaborator and produces no event. -/
def get_parent_folder (dryRun : Bool) (parentFolder : String) (host : Host)
    (sshHost : String) (verbose : Bool) : List Event × Outcome Unit :=
  let e0 := [Event.prompt "Remote parent folder"]
  if parentFolder.toList.contains (Char.ofNat 39) then
    (e0 ++ [Event.err "Error: the remote parent folder must not contain single quotes"],
      .exit 1)
  else if parentFolder = "/" then
    (e0 ++ [Event.err "Error: you cannot choose the root folder as the remote project folder"],
      .exit 1)
  else
    let e1 := e0 ++ (if verbose then
        [Event.echo ("Making sure the project's parent folder exists on " ++ sshHost)]
      else [])
    if dryRun then (e1, .ok ())
    else
      let r := host (mkdirCmd parentFolder)
      let e2 := e1 ++ [Event.exec (mkdirCmd parentFolder)]
      if r.status ≠ 0 then
        (e2 ++ [Event.err ("Error from `mkdir`: " ++ r.err)], .exit 1)
      else (e2, .ok ())

/-- The local `git ls-files` invocation of `git.get_ignores`
(src/git.py lines 89-100). -/
def gitLsFilesArgs : List String :=
  ["git", "ls-files", "--exclude-standard", "--others", "--ignored", "--directory"]

/-- The rsync invocation of `sync_proj` (src/remote.py lines 156-172);
`excludeFile` is the name of the temporary Git-ignore exclusion file. -/
def rsyncArgs (excludeFile sshHost folder : String) : List String :=
  ["rsync", "--quiet", "--recursive", "--compress", "--rsh=ssh", "--perms",
    "--times", "--group", "--exclude-from=" ++ excludeFile, ".",
    sshHost ++ ":" ++ folder]

/-- `sync_proj` (src/remote.py lines 147-174): announce the sync, compute
the Git-ignore list locally (read-only `git ls-files`, runs even in a dry
run), and, when not a dry run, run rsync (`rsyncStatus` is its exit status;
`check=True` makes a non-zero status fatal). -/
def sync_proj (dryRun : Bool) (folder sshHost : String) (verbose : Bool)
    (excludeFile : String) (rsyncStatus : Nat) : List Event × Outcome Unit :=
  let e0 := [Event.echo ("Syncing " ++ pathName folder ++ " to " ++ sshHost ++
      ":" ++ folder)] ++
    (if verbose then [Event.echo "Getting the list of files & folders ignored by Git"]
      else []) ++
    [Event.run gitLsFilesArgs]
  if dryRun then (e0, .ok ())
  else
    let e1 := e0 ++ [Event.run (rsyncArgs excludeFile sshHost folder)]
    if rsyncStatus ≠ 0 then (e1, .exit 1)
    else (e1, .ok ())

/-- `start` (src/docker.py lines 148-158): announce, and when not a dry
run, `compose up -d` (non-zero exit is fatal). -/
def start (dryRun : Bool) (folder composeCmd : String) (host : Host) :
    List Event × Outcome Unit :=
  let e0 := [Event.echo "Starting the Docker services"]
  if dryRun then (e0, .ok ())
  else
    let r := host (upCmd folder composeCmd)
    let e1 := e0 ++ [Event.exec (upCmd folder composeCmd)]
    if r.status ≠ 0 then (e1 ++ [Event.err ("Error: " ++ r.err)], .exit 1)
    else (e1, .ok ())

/-- The polling loop of `monitor` (src/docker.py lines 166-186): one
`compose ps --format json` round trip per poll; non-zero exit or empty
stdout is fatal; otherwise each service's name and status is printed.
`polls` lists the successive poll results; its end models the operator's
`KeyboardInterrupt`, which ends the loop cleanly. `parseService` abstracts
the per-line JSON decoding into (name, status). -/
def monitorLoop (folder composeCmd : String)
    (parseService : String → String × String) :
    List ExecResult → List Event × Outcome Unit
  | [] => ([], .ok ())
  | r :: rest =>
    let e0 := [Event.exec (composePsCmd folder composeCmd)]
    if r.status ≠ 0 then (e0 ++ [Event.err ("Error: " ++ r.err)], .exit 1)
    else if r.out = "" then
      (e0 ++ [Event.err "Error: no services are running"], .exit 1)
    else
      let e1 := e0 ++ [Event.echo "\t------------------------------"] ++
        (splitlines r.out).map fun line =>
          let sv := parseService line
          Event.echo ("\t" ++ sv.1 ++ ": " ++ sv.2)
      seqRun e1 (monitorLoop folder composeCmd parseService rest)

/-- `monitor` (src/docker.py lines 161-186): announce the monitoring
phase; in a dry run the whole polling loop is skipped. -/
def monitor (dryRun : Bool) (folder composeCmd : String)
    (parseService : String → String × String) (polls : List ExecResult) :
    List Event × Outcome Unit :=
  seqRun [Event.echo "Monitoring the services' statuses (press Ctrl+C to stop)"]
    (if dryRun then ([], .ok ()) else monitorLoop folder composeCmd parseService polls)



/-! ## Trace-projection helper lemmas -/

@[simp] theorem execCmds_nil : execCmds [] = [] := rfl

@[simp] theorem execCmds_append (a b : List Event) :
    execCmds (a ++ b) = execCmds a ++ execCmds b := by
  simp [execCmds, List.filterMap_append]

@[simp] theorem execCmds_echo (m : String) (es : List Event) :
    execCmds (Event.echo m :: es) = execCmds es := rfl

@[simp] theorem execCmds_err (m : String) (es : List Event) :
    execCmds (Event.err m :: es) = execCmds es := rfl

@[simp] theorem execCmds_run (a : List String) (es : List Event) :
    execCmds (Event.run a :: es) = execCmds es := rfl

@[simp] theorem execCmds_prompt (m : String) (es : List Event) :
    execCmds (Event.prompt m :: es) = execCmds es := rfl

@[simp] theorem execCmds_exec (c : String) (es : List Event) :
    execCmds (Event.exec c :: es) = c :: execCmds es := rfl

@[simp] theorem echoMsgs_nil : echoMsgs [] = [] := rfl

@[simp] theorem echoMsgs_append (a b : List Event) :
    echoMsgs (a ++ b) = echoMsgs a ++ echoMsgs b := by
  simp [echoMsgs, List.filterMap_append]

@[simp] theorem echoMsgs_echo (m : String) (es : List Event) :
    echoMsgs (Event.echo m :: es) = m :: echoMsgs es := rfl

@[simp] theorem echoMsgs_err (m : String) (es : List Event) :
    echoMsgs (Event.err m :: es) = echoMsgs es := rfl

@[simp] theorem echoMsgs_run (a : List String) (es : List Event) :
    echoMsgs (Event.run a :: es) = echoMsgs es := rfl

@[simp] theorem echoMsgs_prompt (m : String) (es : List Event) :
    echoMsgs (Event.prompt m :: es) = echoMsgs es := rfl

@[simp] theorem echoMsgs_exec (c : String) (es : List Event) :
    echoMsgs (Event.exec c :: es) = echoMsgs es := rfl

@[simp] theorem runCmds_nil : runCmds [] = [] := rfl

@[simp] theorem runCmds_append (a b : List Event) :
    runCmds (a ++ b) = runCmds a ++ runCmds b := by
  simp [runCmds, List.filterMap_append]

@[simp] theorem runCmds_echo (m : String) (es : List Event) :
    runCmds (Event.echo m :: es) = runCmds es := rfl

@[simp] theorem runCmds_err (m : String) (es : List Event) :
    runCmds (Event.err m :: es) = runCmds es := rfl

@[simp] theorem runCmds_run (a : List String) (es : List Event) :
    runCmds (Event.run a :: es) = a :: runCmds es := rfl

@[simp] theorem runCmds_prompt (m : String) (es : List Event) :
    runCmds (Event.prompt m :: es) = runCmds es := rfl

@[simp] theorem runCmds_exec (c : String) (es : List Event) :
    runCmds (Event.exec c :: es) = runCmds es := rfl

/-- Helper: the remote commands issued by `__delete_project`, fully
characterized as a function of the host oracle's answers. -/
theorem delete_project_execCmds (dr : Bool) (f : String) (st : ProjStatus)
    (cc : String) (host : Host) (v : Bool) (jn : String → String) :
    execCmds (delete_project dr f st cc host v jn).1 =
      if dr then [volumesCmd f cc]
      else
        downCmd f cc ::
          (if (host (downCmd f cc)).status ≠ 0 then []
           else volumesCmd f cc ::
             (if (host (volumesCmd f cc)).status ≠ 0 then []
              else
                if enumeratedVolumes jn (host (volumesCmd f cc)).out = [] then
                  [rmFolderCmd f]
                else
                  volumeRmCmd (enumeratedVolumes jn (host (volumesCmd f cc)).out) ::
                    (if (host (volumeRmCmd (enumeratedVolumes jn
                          (host (volumesCmd f cc)).out))).status ≠ 0 then []
                     else [rmFolderCmd f]))) := by
  cases dr <;>
    simp only [delete_project, delete_project_volumes, delete_project_finish,
      seqRun, Bool.false_eq_true, if_false, if_true, reduceIte] <;>
    split_ifs <;>
    simp_all

/-- Helper: the outcome of `__delete_project`, fully characterized as a
function of the host oracle's answers. -/
theorem delete_project_outcome (dr : Bool) (f : String) (st : ProjStatus)
    (cc : String) (host : Host) (v : Bool) (jn : String → String) :
    (delete_project dr f st cc host v jn).2 =
      if dr then
        (if (host (volumesCmd f cc)).status ≠ 0 then Outcome.exit 1
         else .ok { st with dotenv_file_exists := false })
      else
        if (host (downCmd f cc)).status ≠ 0 then .exit 1
        else if (host (volumesCmd f cc)).status ≠ 0 then .exit 1
        else if enumeratedVolumes jn (host (volumesCmd f cc)).out = [] then
          .ok { st with dotenv_file_exists := false }
        else if (host (volumeRmCmd (enumeratedVolumes jn
            (host (volumesCmd f cc)).out))).status ≠ 0 then .exit 1
        else .ok { st with dotenv_file_exists := false } := by
  cases dr <;>
    simp only [delete_project, delete_project_volumes, delete_project_finish,
      seqRun, Bool.false_eq_true, if_false, if_true, reduceIte] <;>
    split_ifs <;>
    simp_all

/-- Helper: the reset branch of the legacy entry point either completes
with the in-memory dotenv flag `false`, or terminates the process. -/
theorem main_reset_outcome (dr : Bool) (f cc : String) (host : Host) :
    (main_reset dr f cc host).2 = .ok false ∨
      (main_reset dr f cc host).2 = .exit 1 := by
  cases dr <;>
    simp only [main_reset, seqRun, Bool.false_eq_true, if_false, if_true,
      reduceIte] <;>
    (try split_ifs) <;>
    simp_all
/-! ## Claim theorems -/

/-- C2: for every run of the Reset action, the steps execute in the strict
order stop stack → enumerate volumes → delete enumerated volumes → delete
folder. The remote commands issued by `__delete_project` are exactly: the
`compose down` (when not a dry run) first; then (only if it succeeded, or
was skipped by the dry run) the structured volume listing; then (only if
the listing succeeded and enumerated at least one volume, and not a dry
run) the `docker volume rm`; then (only after volumes were handled, and
not a dry run) the `rm -rf` of the folder. No interleaving is possible. -/
theorem reset_exec_order (dr : Bool) (f : String) (st : ProjStatus)
    (cc : String) (host : Host) (v : Bool) (jn : String → String) :
    execCmds (delete_project dr f st cc host v jn).1 =
      if dr then [volumesCmd f cc]
      else
        downCmd f cc ::
          (if (host (downCmd f cc)).status ≠ 0 then []
           else volumesCmd f cc ::
             (if (host (volumesCmd f cc)).status ≠ 0 then []
              else
                if enumeratedVolumes jn (host (volumesCmd f cc)).out = [] then
                  [rmFolderCmd f]
                else
                  volumeRmCmd (enumeratedVolumes jn (host (volumesCmd f cc)).out) ::
                    (if (host (volumeRmCmd (enumeratedVolumes jn
                          (host (volumesCmd f cc)).out))).status ≠ 0 then []
                     else [rmFolderCmd f]))) :=
  delete_project_execCmds dr f st cc host v jn

/-- C1 (amended): in the refactored reconciliation module
(src/remote.py `__delete_project`), after stopping the stack the volumes
removed are exactly those enumerated by the structured compose volume
listing, deleted by name in a single `docker volume rm`, with no other
remote command issued (in particular no `docker volume prune`), and the
project folder is recursively deleted afterwards. (The legacy flat entry
point src/main.py instead blanket-prunes; see the counterexample.) -/
theorem reset_volumes_exact (f : String) (st : ProjStatus) (cc : String)
    (host : Host) (v : Bool) (jn : String → String)
    (hdown : (host (downCmd f cc)).status = 0)
    (hvol : (host (volumesCmd f cc)).status = 0) :
    (enumeratedVolumes jn (host (volumesCmd f cc)).out = [] →
      execCmds (delete_project false f st cc host v jn).1 =
        [downCmd f cc, volumesCmd f cc, rmFolderCmd f]) ∧
    (∀ names, names = enumeratedVolumes jn (host (volumesCmd f cc)).out →
      names ≠ [] → (host (volumeRmCmd names)).status = 0 →
      execCmds (delete_project false f st cc host v jn).1 =
        [downCmd f cc, volumesCmd f cc, volumeRmCmd names, rmFolderCmd f]) := by
  constructor
  · intro hnil
    rw [delete_project_execCmds]
    simp [hdown, hvol, hnil]
  · intro names hn hne hrm
    subst hn
    rw [delete_project_execCmds]
    simp [hdown, hvol, hne, hrm]

/-- C1 witness: a concrete run of `__delete_project` against a host that
reports two volumes removes exactly those two volumes by name and then the
folder. -/
theorem reset_volumes_exact_witness :
    execCmds (delete_project false "/home/user/repos/proj"
        { folder_exists := true }
        "docker compose -f 'compose.yaml'"
        (fun c => if c = volumesCmd "/home/user/repos/proj"
            "docker compose -f 'compose.yaml'" then
            { status := 0, out := "proj_data\nproj_cache", err := "" }
          else { status := 0, out := "", err := "" })
        false id).1 =
      [downCmd "/home/user/repos/proj" "docker compose -f 'compose.yaml'",
       volumesCmd "/home/user/repos/proj" "docker compose -f 'compose.yaml'",
       volumeRmCmd ["proj_data", "proj_cache"],
       rmFolderCmd "/home/user/repos/proj"] :=
  (reset_volumes_exact "/home/user/repos/proj" { folder_exists := true }
      "docker compose -f 'compose.yaml'"
      (fun c => if c = volumesCmd "/home/user/repos/proj"
          "docker compose -f 'compose.yaml'" then
          { status := 0, out := "proj_data\nproj_cache", err := "" }
        else { status := 0, out := "", err := "" })
      false id (by decide) (by decide)).2
    ["proj_data", "proj_cache"] (by decide) (by decide) (by decide)

/-- C1 counterexample: the reset branch of the legacy flat entry point
(src/main.py lines 365-375) does issue a blanket volume-pruning command —
`docker volume prune --force` chained with forced removal of every
dangling volume on the host — so "no blanket volume pruning is ever
performed" is false of the program as a whole. -/
theorem main_reset_blanket_prune :
    pruneCmd "/home/user/repos/proj" ∈
      execCmds (main_reset false "/home/user/repos/proj"
        "docker compose -f 'compose.yaml'"
        (fun _ => { status := 0, out := "", err := "" })).1 ∧
    pruneCmd "/home/user/repos/proj" =
      "cd '/home/user/repos/proj' && docker volume prune --force" ++
        " && docker volume rm --force $(docker volume ls --quiet --filter dangling=true)" := by
  constructor
  · decide
  · rfl

/-- C8: after the Reset action completes, the in-memory status's
`dotenv_file_exists` flag is `false`, regardless of its pre-Reset value —
both in the refactored `__delete_project` and in the legacy entry point's
reset branch. -/
theorem reset_clears_dotenv_flag (dr : Bool) (f : String) (st : ProjStatus)
    (cc : String) (host : Host) (v : Bool) (jn : String → String) :
    (∀ st', (delete_project dr f st cc host v jn).2 = .ok st' →
      st'.dotenv_file_exists = false) ∧
    (∀ b, (main_reset dr f cc host).2 = .ok b → b = false) := by
  constructor
  · intro st' h
    rw [delete_project_outcome] at h
    split_ifs at h <;> simp_all <;> simp [← h]
  · intro b h
    rcases main_reset_outcome dr f cc host with h2 | h2 <;> rw [h2] at h <;>
      simp_all

/-- C8 witness: a concrete Reset run, starting from a status whose
`dotenv_file_exists` is `true`, ends with the flag `false`. -/
theorem reset_clears_dotenv_flag_witness :
    ({ folder_exists := true, git_folder_exists := true, git_is_clean := true,
        dotenv_file_exists := false } : ProjStatus).dotenv_file_exists = false :=
  (reset_clears_dotenv_flag false "/home/user/repos/proj"
      { folder_exists := true, git_folder_exists := true, git_is_clean := true,
        dotenv_file_exists := true }
      "docker compose -f 'compose.yaml'"
      (fun _ => { status := 0, out := "", err := "" }) false id).1
    { folder_exists := true, git_folder_exists := true, git_is_clean := true,
      dotenv_file_exists := false }
    (by decide)

/-- C9: in the Reset action, a non-zero exit from the stack stop, the
volume enumeration, or the volume deletion terminates the run with exit
code 1; a non-zero exit from the recursive folder deletion is downgraded:
its stderr is printed as a plain message and the run completes normally
(so it continues to the Sync stage). -/
theorem reset_failure_severity (f : String) (st : ProjStatus) (cc : String)
    (host : Host) (v : Bool) (jn : String → String) :
    ((host (downCmd f cc)).status ≠ 0 →
      (delete_project false f st cc host v jn).2 = .exit 1) ∧
    ((host (downCmd f cc)).status = 0 → (host (volumesCmd f cc)).status ≠ 0 →
      (delete_project false f st cc host v jn).2 = .exit 1) ∧
    ((host (downCmd f cc)).status = 0 → (host (volumesCmd f cc)).status = 0 →
      enumeratedVolumes jn (host (volumesCmd f cc)).out ≠ [] →
      (host (volumeRmCmd (enumeratedVolumes jn
        (host (volumesCmd f cc)).out))).status ≠ 0 →
      (delete_project false f st cc host v jn).2 = .exit 1) ∧
    ((host (downCmd f cc)).status = 0 → (host (volumesCmd f cc)).status = 0 →
      (enumeratedVolumes jn (host (volumesCmd f cc)).out ≠ [] →
        (host (volumeRmCmd (enumeratedVolumes jn
          (host (volumesCmd f cc)).out))).status = 0) →
      (host (rmFolderCmd f)).status ≠ 0 →
      (delete_project false f st cc host v jn).2 =
          .ok { st with dotenv_file_exists := false } ∧
        Event.echo (host (rmFolderCmd f)).err ∈
          (delete_project false f st cc host v jn).1) := by
  refine ⟨?_, ?_, ?_, ?_⟩
  · intro h1
    rw [delete_project_outcome]
    simp [h1]
  · intro h1 h2
    rw [delete_project_outcome]
    simp [h1, h2]
  · intro h1 h2 h3 h4
    rw [delete_project_outcome]
    simp [h1, h2, h3, h4]
  · intro h1 h2 h3 h4
    constructor
    · rw [delete_project_outcome]
      by_cases hn : enumeratedVolumes jn (host (volumesCmd f cc)).out = [] <;>
        simp [h1, h2, hn, h3]
    · cases v <;>
        (by_cases hn : enumeratedVolumes jn (host (volumesCmd f cc)).out = [] <;>
          simp [delete_project, delete_project_volumes, delete_project_finish,
            seqRun, h1, h2, hn, h3, h4])

/-- C9 witness: a concrete Reset run in which only the folder deletion
fails (exit status 1, stderr about a root-owned log file) completes
normally and prints that stderr. -/
theorem reset_failure_severity_witness :
    (delete_project false "/home/user/repos/proj" { folder_exists := true }
        "docker compose -f 'compose.yaml'"
        (fun c => if c = rmFolderCmd "/home/user/repos/proj" then
            { status := 1, out := "",
              err := "rm: cannot remove 'logs/app.log': Permission denied" }
          else if c = volumesCmd "/home/user/repos/proj"
              "docker compose -f 'compose.yaml'" then
            { status := 0, out := "proj_data", err := "" }
          else { status := 0, out := "", err := "" })
        false id).2 =
      .ok { folder_exists := true, dotenv_file_exists := false } ∧
    Event.echo "rm: cannot remove 'logs/app.log': Permission denied" ∈
      (delete_project false "/home/user/repos/proj" { folder_exists := true }
        "docker compose -f 'compose.yaml'"
        (fun c => if c = rmFolderCmd "/home/user/repos/proj" then
            { status := 1, out := "",
              err := "rm: cannot remove 'logs/app.log': Permission denied" }
          else if c = volumesCmd "/home/user/repos/proj"
              "docker compose -f 'compose.yaml'" then
            { status := 0, out := "proj_data", err := "" }
          else { status := 0, out := "", err := "" })
        false id).1 :=
  (reset_failure_severity "/home/user/repos/proj" { folder_exists := true }
      "docker compose -f 'compose.yaml'"
      (fun c => if c = rmFolderCmd "/home/user/repos/proj" then
          { status := 1, out := "",
            err := "rm: cannot remove 'logs/app.log': Permission denied" }
        else if c = volumesCmd "/home/user/repos/proj"
            "docker compose -f 'compose.yaml'" then
          { status := 0, out := "proj_data", err := "" }
        else { status := 0, out := "", err := "" })
      false id).2.2.2 (by decide) (by decide) (fun _ => by decide) (by decide)

/-- Helper: the classification messages before the update/reset/cancel
prompt issue no remote command. -/
theorem execCmds_classifyEchoes (f s : String) (st : ProjStatus) :
    execCmds (classifyEchoes f s st) = [] := by
  unfold classifyEchoes
  split_ifs <;> simp

/-- C3: cancellation is terminal. Choosing Cancel (3) at the
existing-project prompt ends the run with exit code 0, issuing no remote
command at all — the trace after the choice is exactly the "Redeployment
canceled" message; and choosing Cancel (2) at the port-conflict prompt
likewise ends the run with exit code 0, the only remote command of the
whole stage being the read-only `docker ps` listing issued before the
choice. -/
theorem cancel_is_terminal (dr : Bool) (f : String) (st : ProjStatus)
    (cc sshHost : String) (host : Host) (v : Bool) (jn : String → String)
    (tp : String) (pc : String → ContainerRec) (wd : String → String) :
    (handle_existing_proj dr f st cc host sshHost v jn 3 =
      (classifyEchoes f sshHost st ++
        [Event.prompt resetPromptText, Event.echo "Redeployment canceled"],
        .exit 0) ∧
      execCmds (handle_existing_proj dr f st cc host sshHost v jn 3).1 = []) ∧
    ((host psCmd).status = 0 → ∀ c,
      findConflict tp ((splitlines (host psCmd).out).map pc) = .ok (some c) →
      check_port dr cc tp sshHost host pc wd 2 =
        ([Event.echo ("Checking whether port " ++ tp ++
            " is already in use on " ++ sshHost),
          Event.exec psCmd,
          Event.echo ("Port " ++ tp ++ " is already in use by " ++ c.names ++
            " (" ++ c.id ++ ") on " ++ sshHost),
          Event.prompt portPromptText,
          Event.echo "Deployment canceled"], .exit 0)) := by
  constructor
  · constructor
    · simp [handle_existing_proj]
    · simp [handle_existing_proj, execCmds_classifyEchoes]
  · intro hps c hfind
    simp [check_port, hps, hfind]

/-- C3 witness: a concrete port-conflict run in which the operator cancels
exits 0 with no remote command after the `docker ps` probe. -/
theorem cancel_is_terminal_witness :
    check_port false "docker compose -f 'compose.yaml'" "8228" "server1"
        (fun _ => { status := 0, out := "j", err := "" })
        (fun _ => ⟨some "0.0.0.0:8228-8228/tcp", "demo", "abc123"⟩)
        (fun _ => "") 2 =
      ([Event.echo "Checking whether port 8228 is already in use on server1",
        Event.exec psCmd,
        Event.echo "Port 8228 is already in use by demo (abc123) on server1",
        Event.prompt portPromptText,
        Event.echo "Deployment canceled"], .exit 0) := by
  have h := (cancel_is_terminal false "/home/user/repos/proj"
      { folder_exists := true } "docker compose -f 'compose.yaml'" "server1"
      (fun _ => { status := 0, out := "j", err := "" }) false id "8228"
      (fun _ => ⟨some "0.0.0.0:8228-8228/tcp", "demo", "abc123"⟩)
      (fun _ => "")).2 (by decide)
      ⟨some "0.0.0.0:8228-8228/tcp", "demo", "abc123"⟩ (by decide)
  simpa using h

/-- C6: the port inspector takes the first comma-delimited entry of the
published-ports field, splits on `:` and then on `-`, and compares the
extracted exposed port to the target for equality. For the container port
string `"0.0.0.0:8228-8228/tcp"`, target `8228` is reported as a conflict
and target `9000` as no conflict, both at the level of the scanning loop
and of the whole `check_port` stage. -/
theorem port_match_extraction :
    firstPortsField "0.0.0.0:8228-8228/tcp" = "0.0.0.0:8228-8228/tcp".toList ∧
    exposedPort "0.0.0.0:8228-8228/tcp" = "8228" ∧
    findConflict "8228"
        [⟨some "0.0.0.0:8228-8228/tcp", "demo", "abc123"⟩] =
      .ok (some ⟨some "0.0.0.0:8228-8228/tcp", "demo", "abc123"⟩) ∧
    findConflict "9000"
        [⟨some "0.0.0.0:8228-8228/tcp", "demo", "abc123"⟩] =
      .ok none ∧
    Event.echo "Port 8228 is already in use by demo (abc123) on server1" ∈
      (check_port false "docker compose -f 'compose.yaml'" "8228" "server1"
        (fun _ => { status := 0, out := "j", err := "" })
        (fun _ => ⟨some "0.0.0.0:8228-8228/tcp", "demo", "abc123"⟩)
        (fun _ => "") 2).1 ∧
    Event.echo "🗸 port 9000 is available" ∈
      (check_port false "docker compose -f 'compose.yaml'" "9000" "server1"
        (fun _ => { status := 0, out := "j", err := "" })
        (fun _ => ⟨some "0.0.0.0:8228-8228/tcp", "demo", "abc123"⟩)
        (fun _ => "") 2).1 := by
  decide

/-- C7 counterexample: the claim that the colon assertion holds for every
published-ports string Docker can report is false: on an IPv6-style
mapping such as `":::8228->8228/tcp"` the first comma-delimited field
contains three colons, the assertion condition evaluates to `false`, and
the scanning loop's `AssertionError` branch is reached, crashing the
stage. -/
theorem port_assert_fails_on_ipv6 :
    portAssertOk ":::8228->8228/tcp" = false ∧
    (check_port false "docker compose -f 'compose.yaml'" "8228" "server1"
        (fun _ => { status := 0, out := "j", err := "" })
        (fun _ => ⟨some ":::8228->8228/tcp", "demo", "abc123"⟩)
        (fun _ => "") 1).2 = .crash := by
  decide

/-- C7 (amended): the colon assertion holds exactly on entries whose first
comma-delimited port-mapping field contains a single `:`; in particular it
holds for every single-stack `host:ports` mapping (no colon or comma in
either part), such as plain IPv4 mappings, but IPv6-style fields make the
assertion-failure branch reachable. -/
theorem port_assert_single_colon (hostPart portPart : String)
    (hc1 : ',' ∉ hostPart.toList) (hc2 : ',' ∉ portPart.toList)
    (h1 : ':' ∉ hostPart.toList) (h2 : ':' ∉ portPart.toList) :
    portAssertOk (hostPart ++ ":" ++ portPart) = true := by
  unfold portAssertOk firstPortsField
  have htl : (hostPart ++ ":" ++ portPart).toList =
      hostPart.toList ++ ':' :: portPart.toList := by
    simp [String.toList, String.data_append]
  rw [htl]
  have hsplit : (hostPart.toList ++ ':' :: portPart.toList).splitOn ',' =
      [hostPart.toList ++ ':' :: portPart.toList] := by
    apply List.splitOnP_eq_single
    intro x hx
    rcases List.mem_append.mp hx with hx | hx
    · simp only [beq_iff_eq]
      exact fun he => hc1 (he ▸ hx)
    · rcases List.mem_cons.mp hx with rfl | hx
      · decide
      · simp only [beq_iff_eq]
        exact fun he => hc2 (he ▸ hx)
  rw [hsplit]
  simp only [List.headD_cons]
  have hcount1 : hostPart.toList.count ':' = 0 := List.count_eq_zero.mpr h1
  have hcount2 : portPart.toList.count ':' = 0 := List.count_eq_zero.mpr h2
  simp only [String.toList] at hcount1 hcount2
  simp [List.count_append, List.count_cons, hcount1, hcount2]

/-- C7 amended-claim witness: the assertion condition holds on the plain
IPv4 mapping `0.0.0.0:8228-8228/tcp`. -/
theorem port_assert_single_colon_witness :
    portAssertOk ("0.0.0.0" ++ ":" ++ "8228-8228/tcp") = true :=
  port_assert_single_colon "0.0.0.0" "8228-8228/tcp" (by decide) (by decide)
    (by decide) (by decide)

/-- Helper: the sentinel-parsing fold sets each flag exactly when the
corresponding sentinel line occurs in the parsed lines. -/
theorem foldl_applySentinel (lines : List String) (st : ProjStatus) :
    lines.foldl applySentinel st =
      ⟨st.folder_exists || lines.contains "project folder exists",
       st.git_folder_exists || lines.contains ".git folder exists",
       st.git_is_clean || lines.contains "Git is clean",
       st.dotenv_file_exists || lines.contains ".env file exists"⟩ := by
  induction lines generalizing st with
  | nil => cases st; simp [List.contains]
  | cons l ls ih =>
    rw [List.foldl_cons, ih]
    unfold applySentinel
    split_ifs with hA hB hC hD
    · subst hA; simp [List.contains_cons]
    · subst hB; simp [List.contains_cons]
    · subst hC; simp [List.contains_cons]
    · subst hD; simp [List.contains_cons]
    · have e1 : decide ("project folder exists" = l) = false :=
        decide_eq_false fun h => hA h.symm
      have e2 : decide ((".git folder exists" : String) = l) = false :=
        decide_eq_false fun h => hB h.symm
      have e3 : decide (("Git is clean" : String) = l) = false :=
        decide_eq_false fun h => hC h.symm
      have e4 : decide (((".env file exists" : String) = l)) = false :=
        decide_eq_false fun h => hD h.symm
      simp [List.contains_cons, e1, e2, e3, e4]

/-- C5: the prober issues exactly one composite remote script; each of the
four status flags is set exactly when the corresponding sentinel line
appears in the script's output (absence of a line is authoritative
`false`); the script's nesting means the `.git` sentinel can only be
emitted when the folder exists and the cleanliness sentinel only when the
`.git` folder exists, so on every possible probe result `git_is_clean`
implies `git_folder_exists` and `git_folder_exists` implies
`folder_exists`. -/
theorem probe_script_sentinels :
    (∀ out : String,
      ((parseProjStatus out).folder_exists = true ↔
        "project folder exists" ∈ splitlines out) ∧
      ((parseProjStatus out).git_folder_exists = true ↔
        ".git folder exists" ∈ splitlines out) ∧
      ((parseProjStatus out).git_is_clean = true ↔
        "Git is clean" ∈ splitlines out) ∧
      ((parseProjStatus out).dotenv_file_exists = true ↔
        ".env file exists" ∈ splitlines out)) ∧
    (∀ fs : RemoteFS, parseProjStatus (probeOutput fs) =
      ⟨fs.projFolder, fs.projFolder && fs.gitFolder,
       fs.projFolder && (fs.gitFolder && fs.gitClean),
       fs.projFolder && fs.dotenvFile⟩) ∧
    (∀ fs : RemoteFS,
      ((parseProjStatus (probeOutput fs)).git_is_clean = true →
        (parseProjStatus (probeOutput fs)).git_folder_exists = true) ∧
      ((parseProjStatus (probeOutput fs)).git_folder_exists = true →
        (parseProjStatus (probeOutput fs)).folder_exists = true)) ∧
    (∀ (f sshHost : String) (host : Host) (v : Bool),
      execCmds (get_proj_status f sshHost host v).1 = [probeScript f]) := by
  refine ⟨?_, ?_, ?_, ?_⟩
  · intro out
    unfold parseProjStatus
    rw [foldl_applySentinel]
    simp [List.contains_eq_any_beq, List.any_eq_true]
  · rintro ⟨a, b, c, d⟩
    cases a <;> cases b <;> cases c <;> cases d <;> decide
  · rintro ⟨a, b, c, d⟩
    cases a <;> cases b <;> cases c <;> cases d <;> decide
  · intro f sshHost host v
    cases v <;> simp only [get_proj_status, reduceIte, Bool.false_eq_true] <;>
      split <;> simp

/-- C5 witness: a probe of a remote state with the project folder and a
clean `.git` present but no `.env` yields exactly the matching flags. -/
theorem probe_script_sentinels_witness :
    parseProjStatus (probeOutput ⟨true, true, true, false⟩) =
        ⟨true, true && true, true && (true && true), true && false⟩ ∧
      (parseProjStatus (probeOutput ⟨true, true, true, false⟩)).git_folder_exists = true :=
  ⟨probe_script_sentinels.2.1 ⟨true, true, true, false⟩,
   (probe_script_sentinels.2.2.1 ⟨true, true, true, false⟩).1 (by decide)⟩

/-- Helper: the delimiter the selection loop returns never occurs as a
substring of the body. -/
theorem heredocDelimLoop_not_substring (d body : String) :
    ¬ (heredocDelimLoop d body).toList <:+: body.toList := by
  induction d, body using heredocDelimLoop.induct with
  | case1 d body h ih =>
    rw [heredocDelimLoop, if_pos h]
    exact ih
  | case2 d body h =>
    rw [heredocDelimLoop, if_neg h]
    exact h

/-- Helper: the delimiter the selection loop returns is the seed extended
by some number of `A` characters. -/
theorem heredocDelimLoop_shape (d body : String) :
    ∃ n, heredocDelimLoop d body = d ++ String.mk (List.replicate n 'A') := by
  induction d, body using heredocDelimLoop.induct with
  | case1 d body h ih =>
    rw [heredocDelimLoop, if_pos h]
    obtain ⟨n, hn⟩ := ih
    refine ⟨n + 1, ?_⟩
    rw [hn]
    apply String.ext
    simp [String.data_append, List.replicate_succ]
  | case2 d body h =>
    rw [heredocDelimLoop, if_neg h]
    exact ⟨0, by apply String.ext; simp [String.data_append]⟩
/-- C10: for every finite `.env` body, the delimiter-selection loop
terminates (it is a total function here) and returns a delimiter that is
not a substring of the body, formed by extending `HEREDOC_DELIM` with
repeated `A` characters; when the body contains `HEREDOC_DELIM` but not
`HEREDOC_DELIMA`, the selected delimiter is exactly `HEREDOC_DELIMA`. -/
theorem heredoc_delim_fresh (body : String) :
    ¬ (heredocDelim body).toList <:+: body.toList ∧
    (∃ n, heredocDelim body = "HEREDOC_DELIM" ++ String.mk (List.replicate n 'A')) ∧
    ("HEREDOC_DELIM".toList <:+: body.toList →
      ¬ "HEREDOC_DELIMA".toList <:+: body.toList →
      heredocDelim body = "HEREDOC_DELIMA") := by
  refine ⟨heredocDelimLoop_not_substring _ _, heredocDelimLoop_shape _ _, ?_⟩
  intro h1 h2
  unfold heredocDelim
  rw [heredocDelimLoop, if_pos h1]
  have happ : "HEREDOC_DELIM" ++ "A" = "HEREDOC_DELIMA" := rfl
  rw [happ, heredocDelimLoop, if_neg h2]

/-- C10 witness: for a body containing `HEREDOC_DELIM` but not
`HEREDOC_DELIMA`, the loop selects `HEREDOC_DELIMA`, which indeed does not
occur in the body. -/
theorem heredoc_delim_fresh_witness :
    heredocDelim "DB=x\nHEREDOC_DELIM is here" = "HEREDOC_DELIMA" ∧
    ¬ "HEREDOC_DELIMA".toList <:+: "DB=x\nHEREDOC_DELIM is here".toList :=
  ⟨(heredoc_delim_fresh "DB=x\nHEREDOC_DELIM is here").2.2 (by decide) (by decide),
   by decide⟩

/-- C4: with dry-run enabled no mutating remote command is ever issued —
the Reset path sends only the read-only volume enumeration, the
port-conflict path only `docker ps` and `docker inspect`, and the parent
folder `mkdir`, the remote `.env` write, the rsync file sync, `compose
up`, the legacy reset's commands, and the monitor's polling are all
skipped — while the read-only probes (container listing, container
inspect, project status probe, volume enumeration) still execute, and the
narration still prints (the Reset path's stdout narration in a dry run
equals that of a successful real run against the same host). -/
theorem dry_run_skips_mutations :
    (∀ (f : String) (st : ProjStatus) (cc : String) (host : Host) (v : Bool)
        (jn : String → String),
      execCmds (delete_project true f st cc host v jn).1 = [volumesCmd f cc]) ∧
    (∀ (f : String) (st : ProjStatus) (cc : String) (host : Host) (v : Bool)
        (jn : String → String),
      (host (downCmd f cc)).status = 0 →
      (host (rmFolderCmd f)).status = 0 →
      (enumeratedVolumes jn (host (volumesCmd f cc)).out ≠ [] →
        (host (volumeRmCmd (enumeratedVolumes jn
          (host (volumesCmd f cc)).out))).status = 0) →
      echoMsgs (delete_project false f st cc host v jn).1 =
        echoMsgs (delete_project true f st cc host v jn).1) ∧
    (∀ (f cc : String) (ps : String → String × String) (polls : List ExecResult),
      monitor true f cc ps polls =
        ([Event.echo "Monitoring the services' statuses (press Ctrl+C to stop)"],
          .ok ())) ∧
    (∀ (f sshHost : String) (v : Bool) (ef : String) (rs : Nat),
      runCmds (sync_proj true f sshHost v ef rs).1 = [gitLsFilesArgs] ∧
      execCmds (sync_proj true f sshHost v ef rs).1 = []) ∧
    (∀ (f cc : String) (host : Host),
      start true f cc host = ([Event.echo "Starting the Docker services"], .ok ())) ∧
    (∀ (f : String) (host : Host) (v : Bool) (s : String),
      execCmds (create_dotenv_write true f host v s).1 = []) ∧
    (∀ (pf : String) (host : Host) (sshHost : String) (v : Bool),
      execCmds (get_parent_folder true pf host sshHost v).1 = []) ∧
    (∀ (cc tp sshHost : String) (host : Host) (pc : String → ContainerRec)
        (wd : String → String),
      (host psCmd).status = 0 → ∀ c,
      findConflict tp ((splitlines (host psCmd).out).map pc) = .ok (some c) →
      execCmds (check_port true cc tp sshHost host pc wd 1).1 =
        [psCmd, inspectCmd c.id]) ∧
    (∀ (f sshHost : String) (host : Host) (v : Bool),
      execCmds (get_proj_status f sshHost host v).1 = [probeScript f]) ∧
    (∀ (f cc : String) (host : Host),
      execCmds (main_reset true f cc host).1 = []) := by
  refine ⟨?_, ?_, ?_, ?_, ?_, ?_, ?_, ?_, ?_, ?_⟩
  · intro f st cc host v jn
    rw [delete_project_execCmds]
    simp
  · intro f st cc host v jn h1 h2 h3
    by_cases hn : enumeratedVolumes jn (host (volumesCmd f cc)).out = []
    · cases v <;>
        simp [delete_project, delete_project_volumes, delete_project_finish,
          seqRun, h1, h2, hn] <;>
        split <;> simp
    · have h4 := h3 hn
      cases v <;>
        simp [delete_project, delete_project_volumes, delete_project_finish,
          seqRun, h1, h2, hn, h4] <;>
        split <;> simp
  · intro f cc ps polls
    simp [monitor, seqRun]
  · intro f sshHost v ef rs
    constructor <;> cases v <;> simp [sync_proj]
  · intro f cc host
    simp [start]
  · intro f host v s
    by_cases hs : s = "" <;> cases v <;> simp [create_dotenv_write, hs]
  · intro pf host sshHost v
    unfold get_parent_folder
    split_ifs <;> simp_all
  · intro cc tp sshHost host pc wd hps c hfind
    simp [check_port, hps, hfind]
    split <;> simp
  · intro f sshHost host v
    cases v <;> simp only [get_proj_status, reduceIte, Bool.false_eq_true] <;>
      split <;> simp
  · intro f cc host
    simp [main_reset, seqRun]

/-- C4 witness: a concrete dry-run Reset prints the same narration as the
corresponding successful real run, and a concrete dry-run port-conflict
resolution issues only the `docker ps` and `docker inspect` probes. -/
theorem dry_run_skips_mutations_witness :
    echoMsgs (delete_project false "/home/user/repos/proj"
        { folder_exists := true } "docker compose -f 'compose.yaml'"
        (fun _ => { status := 0, out := "", err := "" }) false id).1 =
      echoMsgs (delete_project true "/home/user/repos/proj"
        { folder_exists := true } "docker compose -f 'compose.yaml'"
        (fun _ => { status := 0, out := "", err := "" }) false id).1 ∧
    execCmds (check_port true "docker compose -f 'compose.yaml'" "8228" "server1"
        (fun _ => { status := 0, out := "j", err := "" })
        (fun _ => ⟨some "0.0.0.0:8228-8228/tcp", "demo", "abc123"⟩)
        (fun _ => "") 1).1 =
      [psCmd, inspectCmd "abc123"] :=
  ⟨dry_run_skips_mutations.2.1 "/home/user/repos/proj"
      { folder_exists := true } "docker compose -f 'compose.yaml'"
      (fun _ => { status := 0, out := "", err := "" }) false id
      rfl rfl (fun _ => rfl),
   dry_run_skips_mutations.2.2.2.2.2.2.2.1 "docker compose -f 'compose.yaml'"
      "8228" "server1" (fun _ => { status := 0, out := "j", err := "" })
      (fun _ => ⟨some "0.0.0.0:8228-8228/tcp", "demo", "abc123"⟩)
      (fun _ => "") rfl
      ⟨some "0.0.0.0:8228-8228/tcp", "demo", "abc123"⟩ (by decide)⟩

end Deploy
